import Mathlib

/-!
Verification development for the nfl-tools birthplaces utility
(`birth_places.py`): a shallow embedding of the scraper, the location
catalog loader, the pagination driver and the batch orchestrator, with
theorems settling the specification's testable properties.

Conventions of the embedding:
* pandas DataFrames become `DataFrame` (a header list plus a row list of
  cells); a missing value (NaN/None) is `CellValue.absent`.
* External-library behaviour that the code relies on (the pandas numeric
  parser, the `pd.DataFrame` constructor, HTML documents as produced by
  BeautifulSoup, HTTP responses) is modelled by explicit data types and
  total functions, documented at each definition.
* Python exceptions become `Except`/`Option` results: a caught exception
  is a branch returning the empty frame, an uncaught one is an
  `Except.error` value propagating to the caller.
* The pagination loop of `load_location_df` is embedded with explicit
  fuel; `none` means the loop is still running after `fuel` iterations,
  so `∀ fuel, ... = none` states non-termination.
-/

/-- A single tabular cell. pandas represents missing values (NaN/None) as
`absent`; scraped text is `str`; numerically coerced cells are `num`. -/
inductive CellValue where
  | absent
  | str (s : String)
  | num (n : Int)
  deriving DecidableEq, Repr

/-- A pandas DataFrame, embedded as a list of column headers plus a list
of rows, each row a list of cells in header order. -/
structure DataFrame where
  headers : List String
  rows : List (List CellValue)
  deriving DecidableEq, Repr

/-- `pd.DataFrame()`: the empty frame returned on every failure path. -/
def emptyDF : DataFrame := ⟨[], []⟩

/-- The numeric-column allow-list of `clean_dataframe`
(`birth_places.py` lines 117-124). -/
def numeric_columns : List String :=
  ["year_min", "year_max", "all_pros_first_team", "pro_bowls",
   "years_as_primary_starter", "career_av", "g", "pass_cmp", "pass_att",
   "pass_yds", "pass_td", "pass_long", "pass_int", "pass_sacked",
   "pass_sacked_yds", "rush_att", "rush_yds", "rush_td", "rush_long",
   "rec", "rec_yds", "rec_td", "rec_long",
   "# of Pros", "# Active", "# of HOF", "G"]

/-- Digits of a decimal literal to a natural number. -/
def digitsToNat (l : List Char) : Nat :=
  l.foldl (fun acc c => acc * 10 + (c.toNat - 48)) 0

/-- Model of the external pandas string-to-number parse used by
`pd.to_numeric`: an optionally negated, nonempty run of decimal digits
parses; everything else fails. (The library itself is out of scope in the
spec; only "parses or fails" matters to the claims.) -/
def parseNumeric (s : String) : Option Int :=
  match s.data with
  | [] => none
  | c :: cs =>
    if c = '-' then
      if cs ≠ [] ∧ cs.all Char.isDigit then some (-(digitsToNat cs : Int))
      else none
    else if (c :: cs).all Char.isDigit then some (digitsToNat (c :: cs))
    else none

/-- `pd.to_numeric(v, errors='coerce')` on one cell: numbers stay, absent
stays absent, a string parses or becomes absent; it never raises. -/
def to_numeric_coerce : CellValue → CellValue
  | .absent => .absent
  | .num n => .num n
  | .str s =>
    match parseNumeric s with
    | some n => .num n
    | none => .absent

/-- One cell of `clean_dataframe`: coerced when its column is in the
allow-list, untouched otherwise. -/
def coerceCell (h : String) (v : CellValue) : CellValue :=
  if h ∈ numeric_columns then to_numeric_coerce v else v

/-- `clean_dataframe` (`birth_places.py` lines 114-130): for each column
in `numeric_columns` present in the frame, replace it with its
`to_numeric(..., errors='coerce')` image; all other columns are left
alone. Embedded cell-wise, keyed by each cell's own header. -/
def clean_dataframe (df : DataFrame) : DataFrame :=
  ⟨df.headers, df.rows.map (fun r => List.zipWith coerceCell df.headers r)⟩

/-- C6: in an allow-listed column, a string that does not parse as a
number is coerced to an absent value; `clean_dataframe` is a total
function, so no error is raised. -/
theorem c6_nonnumeric_coerces_to_absent (df : DataFrame) (i j : Nat)
    (col : String) (r : List CellValue) (s : String)
    (hcol : df.headers[i]? = some col) (hmem : col ∈ numeric_columns)
    (hrow : df.rows[j]? = some r) (hcell : r[i]? = some (CellValue.str s))
    (hparse : parseNumeric s = none) :
    ∃ r', (clean_dataframe df).rows[j]? = some r' ∧
      r'[i]? = some CellValue.absent := by
  refine ⟨List.zipWith coerceCell df.headers r, ?_, ?_⟩
  · show (df.rows.map _)[j]? = _
    rw [List.getElem?_map, hrow]
    rfl
  · rw [List.getElem?_zipWith_eq_some]
    refine ⟨col, CellValue.str s, hcol, hcell, ?_⟩
    simp [coerceCell, hmem, to_numeric_coerce, hparse]

/-- Witness for C6 at a concrete frame: the allow-listed column `g`
holding the non-numeric string `abc` cleans to absent. -/
theorem c6_witness :
    ∃ r', (clean_dataframe ⟨["g"], [[CellValue.str "abc"]]⟩).rows[0]? = some r' ∧
      r'[0]? = some CellValue.absent :=
  c6_nonnumeric_coerces_to_absent ⟨["g"], [[CellValue.str "abc"]]⟩ 0 0 "g"
    [CellValue.str "abc"] "abc" (by decide) (by decide) (by decide) (by decide)
    (by decide)

/-- C10: `clean_dataframe` keeps the headers, the row count and the row
order, and leaves every cell of a column outside the allow-list
unchanged. -/
theorem c10_clean_frame (df : DataFrame) (j i : Nat) (r : List CellValue)
    (h : String) (hrow : df.rows[j]? = some r)
    (hcol : df.headers[i]? = some h) (hmem : h ∉ numeric_columns) :
    (clean_dataframe df).headers = df.headers ∧
    (clean_dataframe df).rows.length = df.rows.length ∧
    ∃ r', (clean_dataframe df).rows[j]? = some r' ∧ r'[i]? = r[i]? := by
  refine ⟨rfl, List.length_map _ _, List.zipWith coerceCell df.headers r, ?_, ?_⟩
  · show (df.rows.map _)[j]? = _
    rw [List.getElem?_map, hrow]
    rfl
  · cases hv : r[i]? with
    | some v =>
      rw [List.getElem?_zipWith_eq_some]
      exact ⟨h, v, hcol, hv, by simp [coerceCell, hmem]⟩
    | none =>
      apply List.getElem?_eq_none
      rw [List.length_zipWith]
      have := List.getElem?_eq_none_iff.mp hv
      omega

/-- Witness for C10 at a concrete frame: the non-allow-listed column
`player` survives cleaning untouched. -/
theorem c10_witness :
    (clean_dataframe ⟨["player"], [[CellValue.str "abc"]]⟩).headers = ["player"] ∧
    (clean_dataframe ⟨["player"], [[CellValue.str "abc"]]⟩).rows.length = 1 ∧
    ∃ r', (clean_dataframe ⟨["player"], [[CellValue.str "abc"]]⟩).rows[0]? = some r' ∧
      r'[0]? = [CellValue.str "abc"][0]? :=
  c10_clean_frame ⟨["player"], [[CellValue.str "abc"]]⟩ 0 0
    [CellValue.str "abc"] "player" (by decide) (by decide) (by decide)

/-- Python `str.strip()` / BeautifulSoup `get_text(strip=True)` on a text
node: drop leading and trailing whitespace. -/
def stripChars (l : List Char) : List Char :=
  ((l.dropWhile Char.isWhitespace).reverse.dropWhile Char.isWhitespace).reverse

/-- String-level wrapper of `stripChars`. -/
def strip (s : String) : String := ⟨stripChars s.data⟩

/-- `str.replace(" ", "%20")`, character by character (the pattern is a
single character, so per-character replacement is exact). -/
def pctEncodeChars : List Char → List Char
  | [] => []
  | c :: cs =>
    if c = ' ' then '%' :: '2' :: '0' :: pctEncodeChars cs
    else c :: pctEncodeChars cs

/-- String-level wrapper of `pctEncodeChars`, as used by
`load_location_df` (lines 178-179) before calling the scraper. -/
def pctEncodeSpaces (s : String) : String := ⟨pctEncodeChars s.data⟩

/-- The request URL built by `scrape_birthplaces` (lines 20-22): base
endpoint with `country` and `state` query parameters, plus `offset` only
when it is positive. -/
def scrape_url (country state : String) (offset : Nat) : String :=
  let url := "https://www.pro-football-reference.com/friv/birthplaces.cgi?country="
    ++ country ++ "&state=" ++ state
  if offset > 0 then url ++ "&offset=" ++ toString offset else url

/-- One header cell of the scraped table: its `data-stat` attribute when
present, and its visible text. -/
structure HeaderCell where
  dataStat : Option String
  text : String
  deriving DecidableEq, Repr

/-- One body cell: whether it is a `th` tag, the text of an embedded
link when one exists, and the cell's own text. -/
structure HtmlCell where
  isTh : Bool
  link : Option String
  text : String
  deriving DecidableEq, Repr

/-- One `tr` of the table body, with whether its class list mentions
`thead` (mid-table repeated header rows). -/
structure BodyRow where
  cells : List HtmlCell
  classThead : Bool
  deriving DecidableEq, Repr

/-- The `birthplaces` table of the page: `thead = none` models a missing
`thead` tag, `some none` a `thead` without a header `tr`; `tbody = none`
models a missing `tbody` tag. -/
structure HtmlTable where
  thead : Option (Option (List HeaderCell))
  tbody : Option (List BodyRow)
  deriving DecidableEq, Repr

/-- Outcome of the single HTTP GET: a transport-level
`requests.RequestException`, or a status code plus the parsed
`birthplaces` table when the page contains one. -/
inductive HttpResponse where
  | netError
  | ok (status : Nat) (table : Option HtmlTable)

/-- Column name of one header cell (line 53): the `data-stat` attribute
when present, else the stripped visible text. -/
def headerName (hc : HeaderCell) : String := hc.dataStat.getD (strip hc.text)

/-- Cell extraction (lines 75-86): prefer the embedded link's text, else
the cell's own text; blank text becomes an absent value. -/
def extractCell (c : HtmlCell) : CellValue :=
  let t := match c.link with
    | some a => strip a
    | none => strip c.text
  if t = "" then CellValue.absent else CellValue.str t

/-- The skip test of lines 71-72: the row contains a `th` cell and its
class list mentions `thead`. -/
def rowSkipped (r : BodyRow) : Bool :=
  r.cells.any (fun c => c.isTh) && r.classThead

/-- The row-collection loop of lines 68-89: skip repeated header rows,
extract each remaining row's cells, keep only nonempty rows. -/
def extractRows (body : List BodyRow) : List (List CellValue) :=
  ((body.filter (fun r => !rowSkipped r)).map
    (fun r => r.cells.map extractCell)).filter (fun rd => !rd.isEmpty)

/-- Model of the external `pd.DataFrame(rows, columns=headers)`
constructor (line 95): with no rows it yields an empty frame carrying the
headers; otherwise it fails (ValueError) unless the widest row is exactly
as wide as the header list, padding narrower rows with absent values. -/
def mkDataFrame (headers : List String) (rows : List (List CellValue)) :
    Option DataFrame :=
  if rows = [] then some ⟨headers, []⟩
  else if (rows.map List.length).foldr max 0 = headers.length then
    some ⟨headers, rows.map
      (fun r => r ++ List.replicate (headers.length - r.length) CellValue.absent)⟩
  else none

/-- The `try` body of `scrape_birthplaces` (lines 29-108) applied to the
outcome of the single GET: every failure path (network error, bad status,
missing table, missing thead, missing header row, missing tbody, frame
construction error) returns the empty frame; otherwise the extracted
frame is cleaned and returned. -/
def scrape_result (resp : HttpResponse) : DataFrame :=
  match resp with
  | .netError => emptyDF
  | .ok status table =>
    if 400 ≤ status then emptyDF
    else
      match table with
      | none => emptyDF
      | some t =>
        match t.thead with
        | none => emptyDF
        | some none => emptyDF
        | some (some hcs) =>
          match t.tbody with
          | none => emptyDF
          | some body =>
            match mkDataFrame (hcs.map headerName) (extractRows body) with
            | none => emptyDF
            | some df => clean_dataframe df

/-- `scrape_birthplaces` (lines 12-108): builds the URL, issues exactly
one GET against the oracle `http`, and processes the response; the second
component is the list of URLs requested, in order. -/
def scrape_birthplaces (country state : String) (offset : Nat)
    (http : String → HttpResponse) : DataFrame × List String :=
  let url := scrape_url country state offset
  (scrape_result (http url), [url])

/-- C4: a response with a non-success status makes the scraper return
the empty frame, with exactly one request issued (no retry); the
embedding is total, so the underlying HTTPError does not propagate. -/
theorem c4_bad_status_empty_no_retry (country state : String) (offset : Nat)
    (http : String → HttpResponse) (status : Nat) (table : Option HtmlTable)
    (hresp : http (scrape_url country state offset) = .ok status table)
    (hbad : 400 ≤ status) :
    scrape_birthplaces country state offset http
      = (emptyDF, [scrape_url country state offset]) := by
  show (scrape_result (http (scrape_url country state offset)),
    [scrape_url country state offset]) = _
  rw [hresp]
  simp only [scrape_result]
  rw [if_pos hbad]

/-- Witness for C4 at a concrete oracle answering 404. -/
theorem c4_witness :
    scrape_birthplaces "USA" "Texas" 0 (fun _ => HttpResponse.ok 404 none)
      = (emptyDF, [scrape_url "USA" "Texas" 0]) :=
  c4_bad_status_empty_no_retry "USA" "Texas" 0 (fun _ => HttpResponse.ok 404 none)
    404 none rfl (by decide)

/-- After space-encoding, no space character remains. -/
theorem pctEncodeChars_no_space (l : List Char) :
    (pctEncodeChars l).all (fun ch => ch != ' ') = true := by
  induction l with
  | nil => rfl
  | cons c cs ih =>
    by_cases h : c = ' '
    · simp [pctEncodeChars, h, ih]
    · simp [pctEncodeChars, h, ih]

/-- C9: for every country, state and offset, the URL the scraper
requests on behalf of the pagination driver is the birthplaces endpoint
with the space-encoded `country` and `state` query parameters, carries
the `offset` parameter exactly when the offset is positive, and the
encoded values contain no space. -/
theorem c9_request_url (country state : String) (offset : Nat)
    (http : String → HttpResponse) :
    (scrape_birthplaces (pctEncodeSpaces country) (pctEncodeSpaces state)
        offset http).2
      = ["https://www.pro-football-reference.com/friv/birthplaces.cgi?country="
          ++ pctEncodeSpaces country ++ "&state=" ++ pctEncodeSpaces state
          ++ (if offset > 0 then "&offset=" ++ toString offset else "")] ∧
    (pctEncodeSpaces country).data.all (fun ch => ch != ' ') = true ∧
    (pctEncodeSpaces state).data.all (fun ch => ch != ' ') = true := by
  refine ⟨?_, pctEncodeChars_no_space country.data, pctEncodeChars_no_space state.data⟩
  show [scrape_url (pctEncodeSpaces country) (pctEncodeSpaces state) offset] = _
  unfold scrape_url
  by_cases h : offset > 0
  · simp only [if_pos h, String.append_assoc]
  · simp only [if_neg h, String.append_empty]

/-- Folding `max` over a nonempty constant list yields that constant. -/
theorem foldr_max_const (l : List Nat) (n : Nat) :
    l ≠ [] → (∀ x ∈ l, x = n) → l.foldr max 0 = n := by
  induction l with
  | nil => intro h _; exact absurd rfl h
  | cons a as ih =>
    intro _ hall
    have ha : a = n := hall a (by simp)
    cases as with
    | nil => simp [ha]
    | cons b bs =>
      have hrec := ih (by simp) (fun x hx => hall x (List.mem_cons_of_mem a hx))
      simp only [List.foldr_cons] at hrec ⊢
      rw [hrec, ha, Nat.max_self]

/-- Every element of a `zipWith` image comes from a pair of elements. -/
theorem mem_of_zipWith {α β γ : Type} (f : α → β → γ) :
    ∀ (l₁ : List α) (l₂ : List β) (c : γ), c ∈ List.zipWith f l₁ l₂ →
      ∃ a b, a ∈ l₁ ∧ b ∈ l₂ ∧ c = f a b := by
  intro l₁
  induction l₁ with
  | nil => intro l₂ c h; simp at h
  | cons a as ih =>
    intro l₂ c h
    cases l₂ with
    | nil => simp at h
    | cons b bs =>
      rw [List.zipWith_cons_cons] at h
      rcases List.mem_cons.mp h with h1 | h2
      · exact ⟨a, b, by simp, by simp, h1⟩
      · rcases ih bs c h2 with ⟨x, y, hx, hy, hc⟩
        exact ⟨x, y, List.mem_cons_of_mem _ hx, List.mem_cons_of_mem _ hy, hc⟩

/-- Cell extraction never produces an empty string: blank text becomes
absent instead. -/
theorem extractCell_ne_emptyStr (c : HtmlCell) :
    extractCell c ≠ CellValue.str "" := by
  unfold extractCell
  cases c.link with
  | none =>
    by_cases h : strip c.text = "" <;> simp [h]
  | some a =>
    by_cases h : strip a = "" <;> simp [h]

/-- Numeric coercion never introduces an empty string. -/
theorem coerceCell_ne_emptyStr (h : String) (v : CellValue)
    (hv : v ≠ CellValue.str "") : coerceCell h v ≠ CellValue.str "" := by
  unfold coerceCell
  by_cases hm : h ∈ numeric_columns
  · rw [if_pos hm]
    cases v with
    | absent => simp [to_numeric_coerce]
    | num n => simp [to_numeric_coerce]
    | str s =>
      simp only [to_numeric_coerce]
      cases parseNumeric s <;> simp
  · rw [if_neg hm]; exact hv

/-- On a body whose rows are all kept (none skipped, none without
cells), row collection is exactly cell extraction row by row. -/
theorem extractRows_eq_map (body : List BodyRow)
    (h : ∀ r ∈ body, rowSkipped r = false ∧ r.cells ≠ []) :
    extractRows body = body.map (fun r => r.cells.map extractCell) := by
  unfold extractRows
  have h1 : body.filter (fun r => !rowSkipped r) = body :=
    List.filter_eq_self.mpr (fun r hr => by simp [(h r hr).1])
  rw [h1]
  apply List.filter_eq_self.mpr
  intro rd hrd
  rcases List.mem_map.mp hrd with ⟨r, hr, rfl⟩
  simp [List.isEmpty_iff, (h r hr).2]

/-- C5: for a success response whose table is well formed (a thead with
a header row, a tbody, and every body row kept: not a repeated header
row, at least one cell, and exactly one cell per header cell), the
scraper's output has one row per body row, and no output cell is an
empty string — blank cells are absent. -/
theorem c5_wellformed_rowcount_and_absent (country state : String)
    (offset : Nat) (http : String → HttpResponse) (status : Nat)
    (hcs : List HeaderCell) (body : List BodyRow)
    (hresp : http (scrape_url country state offset)
      = HttpResponse.ok status (some ⟨some (some hcs), some body⟩))
    (hok : status < 400)
    (hwf : ∀ r ∈ body, rowSkipped r = false ∧ r.cells ≠ [] ∧
      r.cells.length = hcs.length) :
    (scrape_birthplaces country state offset http).1.rows.length = body.length ∧
    ∀ row ∈ (scrape_birthplaces country state offset http).1.rows,
      ∀ v ∈ row, v ≠ CellValue.str "" := by
  have hrowsEq : extractRows body = body.map (fun r => r.cells.map extractCell) :=
    extractRows_eq_map body (fun r hr => ⟨(hwf r hr).1, (hwf r hr).2.1⟩)
  have hlenEach : ∀ rd ∈ extractRows body,
      rd.length = (hcs.map headerName).length := by
    rw [hrowsEq]
    intro rd hrd
    rcases List.mem_map.mp hrd with ⟨r, hr, rfl⟩
    simp [(hwf r hr).2.2]
  have hmk : mkDataFrame (hcs.map headerName) (extractRows body)
      = some ⟨hcs.map headerName, extractRows body⟩ := by
    unfold mkDataFrame
    by_cases hb : extractRows body = []
    · rw [if_pos hb, hb]
    · rw [if_neg hb, if_pos (foldr_max_const _ _ (by simpa using hb)
        (fun x hx => by
          rcases List.mem_map.mp hx with ⟨rd, hrd, rfl⟩
          exact hlenEach rd hrd))]
      have hpad : ∀ r ∈ extractRows body,
          r ++ List.replicate ((hcs.map headerName).length - r.length)
            CellValue.absent = id r := by
        intro r hr
        rw [hlenEach r hr, Nat.sub_self]
        simp
      rw [List.map_congr_left hpad, List.map_id]
  have hnb : ¬ 400 ≤ status := by omega
  have hres : (scrape_birthplaces country state offset http).1
      = clean_dataframe ⟨hcs.map headerName, extractRows body⟩ := by
    show scrape_result (http (scrape_url country state offset)) = _
    rw [hresp]
    simp only [scrape_result]
    rw [if_neg hnb, hmk]
  constructor
  · rw [hres]
    show (List.map _ (extractRows body)).length = _
    rw [List.length_map, hrowsEq, List.length_map]
  · rw [hres]
    intro row hrow v hv
    rcases List.mem_map.mp hrow with ⟨rd, hrd, rfl⟩
    rcases mem_of_zipWith coerceCell _ _ v hv with ⟨h0, v0, _, hv0, rfl⟩
    have hne : v0 ≠ CellValue.str "" := by
      rw [hrowsEq] at hrd
      rcases List.mem_map.mp hrd with ⟨r, hr, rfl⟩
      rcases List.mem_map.mp hv0 with ⟨cell, _, rfl⟩
      exact extractCell_ne_emptyStr cell
    exact coerceCell_ne_emptyStr h0 v0 hne

/-- A one-column, one-row concrete table for the C5 witness: the single
cell carries a link whose text is `John` and blank own text. -/
def sampleTable : HtmlTable :=
  ⟨some (some [⟨some "player", "x"⟩]),
   some [⟨[⟨false, some "John", ""⟩], false⟩]⟩

/-- Oracle answering status 200 with `sampleTable` for every URL. -/
def sampleHttp : String → HttpResponse :=
  fun _ => HttpResponse.ok 200 (some sampleTable)

/-- Witness for C5 at the concrete `sampleTable`. -/
theorem c5_witness :
    (scrape_birthplaces "USA" "Texas" 0 sampleHttp).1.rows.length
      = [(⟨[⟨false, some "John", ""⟩], false⟩ : BodyRow)].length ∧
    ∀ row ∈ (scrape_birthplaces "USA" "Texas" 0 sampleHttp).1.rows,
      ∀ v ∈ row, v ≠ CellValue.str "" :=
  c5_wellformed_rowcount_and_absent "USA" "Texas" 0 sampleHttp 200
    [⟨some "player", "x"⟩] [⟨[⟨false, some "John", ""⟩], false⟩]
    rfl (by decide) (by decide)

/-- The six expected columns of the location reference file (line 145). -/
def expected_columns : List String :=
  ["Country", "State", "# of Pros", "# Active", "# of HOF", "G"]

/-- Python exceptions relevant to the loader: the `FileNotFoundError` of
a missing file (the only exception caught) and the `KeyError` of a
column selection on a frame lacking a requested column. -/
inductive PyError where
  | fileNotFound
  | keyError
  deriving DecidableEq, Repr

/-- Value of column `c` in row `r` of a frame with the given headers
(first matching header; absent when the row is too short). -/
def colValue (headers : List String) (r : List CellValue) (c : String) :
    CellValue :=
  match headers.indexOf? c with
  | some i => (r[i]?).getD CellValue.absent
  | none => CellValue.absent

/-- `df[[cols]]` (line 145): raises KeyError (`none`) unless every
requested column exists; otherwise restricts each row to the requested
columns, in the requested order. -/
def selectColumns (df : DataFrame) (cols : List String) : Option DataFrame :=
  if cols.all (fun c => df.headers.contains c) then
    some ⟨cols, df.rows.map (fun r => cols.map (colValue df.headers r))⟩
  else none

/-- `.dropna()` (line 145): drop every row holding a missing value. -/
def dropna (df : DataFrame) : DataFrame :=
  ⟨df.headers, df.rows.filter (fun r => !r.contains CellValue.absent)⟩

/-- Sort key of `sort_values(by='# of Pros', ascending=False)`: the
numeric player count when present; missing keys sort last. -/
def prosKey (headers : List String) (r : List CellValue) : Option Int :=
  match colValue headers r "# of Pros" with
  | .num n => some n
  | _ => none

/-- `keyGE a b`: a row with key `a` may precede one with key `b` in the
descending order; missing keys go last (pandas puts NaN last). -/
def keyGE : Option Int → Option Int → Bool
  | some n, some m => m ≤ n
  | some _, none => true
  | none, some _ => false
  | none, none => true

/-- The row order used by the catalog sort. -/
def rowGE (headers : List String) (a b : List CellValue) : Prop :=
  keyGE (prosKey headers a) (prosKey headers b) = true

instance (headers : List String) : DecidableRel (rowGE headers) :=
  fun _ _ => inferInstanceAs (Decidable (_ = true))

instance (headers : List String) : IsTotal (List CellValue) (rowGE headers) := ⟨by
  intro a b
  unfold rowGE
  cases prosKey headers a <;> cases prosKey headers b <;> simp [keyGE] <;> omega⟩

instance (headers : List String) : IsTrans (List CellValue) (rowGE headers) := ⟨by
  intro a b c
  unfold rowGE
  cases prosKey headers a <;> cases prosKey headers b <;>
    cases prosKey headers c <;> simp [keyGE] <;> omega⟩

/-- `sort_values(by='# of Pros', ascending=False)` (line 147), embedded
as an insertion sort under `rowGE`. -/
def sort_by_pros_desc (df : DataFrame) : DataFrame :=
  ⟨df.headers, List.insertionSort (rowGE df.headers) df.rows⟩

/-- `load_locations_df` (lines 141-152) as a function of the reference
file's contents (`none` models a missing `/data/birthlocations.csv`):
the `FileNotFoundError` of a missing file is caught and yields the empty
frame; the `KeyError` of selecting absent columns from a present file is
not caught and propagates to the caller. -/
def load_locations_df (file : Option DataFrame) : Except PyError DataFrame :=
  match file with
  | none => Except.ok emptyDF
  | some raw =>
    match selectColumns raw expected_columns with
    | none => Except.error PyError.keyError
    | some sel =>
      Except.ok (sort_by_pros_desc (clean_dataframe (dropna sel)))

/-- Counterexample to C3: a reference file that exists but lacks the
expected columns makes the loader raise a KeyError that propagates — it
does not return an empty result. -/
theorem c3_counterexample_missing_column :
    load_locations_df (some ⟨["Country"], [[CellValue.str "USA"]]⟩)
      = Except.error PyError.keyError := rfl

/-- C3 amended: only a missing reference file is handled softly (empty
result, no exception); a file that exists but is missing one of the six
expected columns raises a KeyError that propagates to the caller. -/
theorem c3_amended_loader_error_behavior (df : DataFrame)
    (h : expected_columns.all (fun c => df.headers.contains c) = false) :
    load_locations_df none = Except.ok emptyDF ∧
    load_locations_df (some df) = Except.error PyError.keyError := by
  refine ⟨rfl, ?_⟩
  have hcond : ¬ ((expected_columns.all fun c => df.headers.contains c) = true) := by
    rw [h]
    simp
  have hsel : selectColumns df expected_columns = none := if_neg hcond
  simp only [load_locations_df]
  rw [hsel]

/-- Witness for the amended C3 at a concrete one-column file. -/
theorem c3_amended_witness :
    load_locations_df none = Except.ok emptyDF ∧
    load_locations_df (some ⟨["foo"], []⟩) = Except.error PyError.keyError :=
  c3_amended_loader_error_behavior ⟨["foo"], []⟩ (by decide)

/-- C7: on a readable file holding the six expected columns, the loader
returns (without raising) exactly the selected six columns, with the
rows a permutation of the cleaned retained rows, sorted descending by
`# of Pros`, after dropping every row with a missing value among the
selected columns. -/
theorem c7_loader_pipeline (raw : DataFrame)
    (h : expected_columns.all (fun c => raw.headers.contains c) = true) :
    ∃ sel out, selectColumns raw expected_columns = some sel ∧
      load_locations_df (some raw) = Except.ok out ∧
      out.headers = expected_columns ∧
      List.Perm out.rows (clean_dataframe (dropna sel)).rows ∧
      List.Sorted (rowGE expected_columns) out.rows ∧
      ∀ r ∈ (dropna sel).rows, r.contains CellValue.absent = false := by
  have hsel : selectColumns raw expected_columns = some ⟨expected_columns,
      raw.rows.map (fun r => expected_columns.map (colValue raw.headers r))⟩ := by
    unfold selectColumns
    rw [if_pos h]
  refine ⟨⟨expected_columns,
      raw.rows.map (fun r => expected_columns.map (colValue raw.headers r))⟩,
    sort_by_pros_desc (clean_dataframe (dropna ⟨expected_columns,
      raw.rows.map (fun r => expected_columns.map (colValue raw.headers r))⟩)),
    hsel, ?_, rfl, ?_, ?_, ?_⟩
  · simp only [load_locations_df]
    rw [hsel]
  · exact List.perm_insertionSort _ _
  · exact List.sorted_insertionSort _ _
  · intro r hr
    have hkeep := (List.mem_filter.mp hr).2
    simpa using hkeep

/-- A concrete two-row reference file with the six expected columns. -/
def sampleLocationsCsv : DataFrame :=
  ⟨["Country", "State", "# of Pros", "# Active", "# of HOF", "G"],
   [[CellValue.str "USA", CellValue.str "TX", CellValue.str "100",
     CellValue.str "5", CellValue.str "2", CellValue.str "3000"],
    [CellValue.str "USA", CellValue.str "CA", CellValue.str "250",
     CellValue.str "7", CellValue.str "4", CellValue.str "8000"]]⟩

/-- Witness for C7 at `sampleLocationsCsv`. -/
theorem c7_witness :
    ∃ sel out, selectColumns sampleLocationsCsv expected_columns = some sel ∧
      load_locations_df (some sampleLocationsCsv) = Except.ok out ∧
      out.headers = expected_columns ∧
      List.Perm out.rows (clean_dataframe (dropna sel)).rows ∧
      List.Sorted (rowGE expected_columns) out.rows ∧
      ∀ r ∈ (dropna sel).rows, r.contains CellValue.absent = false :=
  c7_loader_pipeline sampleLocationsCsv (by decide)

/-- One location record of the catalog, as read by `load_location_df`
via `row.get('Country')`, `row.get('State')`, `row.get('# of Pros')`. -/
structure LocationRow where
  country : String
  state : String
  pros : Int
  deriving DecidableEq, Repr

/-- `pd.concat([a, b], ignore_index=True)` for same-schema frames: rows
are appended in order; an empty accumulator adopts the newcomer's
headers (the library's general column alignment is out of scope in the
spec). -/
def dfConcat (a b : DataFrame) : DataFrame :=
  ⟨if a.headers.isEmpty then b.headers else a.headers, a.rows ++ b.rows⟩

/-- The scraping loop of `load_location_df` (lines 172-198), with
explicit fuel; the state is the offset, the accumulated frame and the
request log. The loop runs while `pros ≥ offset`; it fetches — and, in
the source, increments the offset, since `offset += 200` (line 198) sits
inside the `if offset > 0:` block (line 173) — only when `offset > 0`.
`none` means the loop has not terminated within `fuel` iterations. -/
def paginate (row : LocationRow) (http : String → HttpResponse) :
    Nat → Nat → DataFrame → List String →
      Option (DataFrame × List String)
  | 0, _, _, _ => none
  | fuel + 1, offset, out, log =>
    if (offset : Int) ≤ row.pros then
      if offset > 0 then
        let res := scrape_birthplaces (pctEncodeSpaces row.country)
          (pctEncodeSpaces row.state) offset http
        if res.1.rows.isEmpty then some (out, log ++ res.2)
        else paginate row http fuel (offset + 200) (dfConcat out res.1)
          (log ++ res.2)
      else paginate row http fuel offset out log
    else some (out, log)

/-- `load_location_df` (lines 155-200): a location with fewer than one
known pro is skipped with an empty result; otherwise the pagination
loop runs from offset 0 with an empty accumulator. The 3-second
courtesy sleep has no data effect and is not modelled. -/
def load_location_df (row : LocationRow) (http : String → HttpResponse)
    (fuel : Nat) : Option (DataFrame × List String) :=
  if row.pros < 1 then some (emptyDF, [])
  else paginate row http fuel 0 emptyDF []

/-- C1 (code bug): with known_pro_count = 250 the pagination loop never
terminates and issues no fetch. At offset 0 the whole body — fetch and
`offset += 200` alike — is skipped, so the state never changes while
`250 >= 0` stays true; the claimed single fetch at offset 200 is never
reached, for every oracle and every iteration bound. -/
theorem c1_pagination_250_diverges (http : String → HttpResponse)
    (fuel : Nat) :
    load_location_df ⟨"USA", "Texas", 250⟩ http fuel = none := by
  have hstep : ∀ n : Nat,
      paginate ⟨"USA", "Texas", 250⟩ http n 0 emptyDF [] = none := by
    intro n
    induction n with
    | zero => rfl
    | succ k ih =>
      simp only [paginate]
      norm_num
      exact ih
  simp only [load_location_df]
  norm_num
  exact hstep fuel

/-- C2 (code bug): with known_pro_count = 50 the driver does issue zero
fetches, but it does not terminate: the loop condition `50 >= 0` never
fails because the offset is never incremented at offset 0. -/
theorem c2_pagination_50_diverges (http : String → HttpResponse)
    (fuel : Nat) :
    load_location_df ⟨"USA", "Alaska", 50⟩ http fuel = none := by
  have hstep : ∀ n : Nat,
      paginate ⟨"USA", "Alaska", 50⟩ http n 0 emptyDF [] = none := by
    intro n
    induction n with
    | zero => rfl
    | succ k ih =>
      simp only [paginate]
      norm_num
      exact ih
  simp only [load_location_df]
  norm_num
  exact hstep fuel

/-- `load_birthplaces` (lines 202-213), its consolidation fold: the
per-location driver is an oracle parameter (the real `load_location_df`
need not terminate, see C1/C2); the orchestrator concatenates each
location's accumulator into the consolidated frame in catalog order. -/
def load_birthplaces (driver : LocationRow → DataFrame)
    (locations : List LocationRow) : DataFrame :=
  locations.foldl (fun acc row => dfConcat acc (driver row)) emptyDF

/-- Consolidation fold lemma, generalized over the accumulator. -/
theorem load_birthplaces_rows_aux (driver : LocationRow → DataFrame) :
    ∀ (locations : List LocationRow) (acc : DataFrame),
      (locations.foldl (fun a row => dfConcat a (driver row)) acc).rows
        = acc.rows ++ (locations.map (fun row => (driver row).rows)).flatten := by
  intro locations
  induction locations with
  | nil => intro acc; simp
  | cons r rs ih =>
    intro acc
    simp only [List.foldl_cons, List.map_cons, List.flatten_cons]
    rw [ih]
    show (dfConcat acc (driver r)).rows ++ _ = _
    simp [dfConcat, List.append_assoc]

/-- C8: the consolidated output's rows are exactly the per-location
accumulators' rows joined in catalog order, so its row count is the sum
of the per-location row counts. -/
theorem c8_consolidated_join (driver : LocationRow → DataFrame)
    (locations : List LocationRow) :
    (load_birthplaces driver locations).rows
      = (locations.map (fun row => (driver row).rows)).flatten ∧
    (load_birthplaces driver locations).rows.length
      = (locations.map (fun row => (driver row).rows.length)).sum := by
  have h := load_birthplaces_rows_aux driver locations emptyDF
  have h' : (load_birthplaces driver locations).rows
      = (locations.map (fun row => (driver row).rows)).flatten := by
    simpa [load_birthplaces] using h
  refine ⟨h', ?_⟩
  rw [h', List.length_flatten, List.map_map]
  rfl
